import Mathlib

/-!
Shallow embedding of the doc-explainer backend (FastAPI + SQLAlchemy app in
`main.py`, `models.py`, `auth_utils.py`, `auth_deps.py`, `admin_auth.py`).

The durable store (the SQLAlchemy session over Postgres) is modelled as an
explicit record of lists of rows; each endpoint handler becomes a pure
function from the store (plus the current time and the random values the
handler draws) to the new store and an HTTP-level outcome.  Time is a `Nat`
counted in minutes, matching the units of the code's `timedelta(minutes=...)`
values.  External collaborators (passlib, sha256, the JWT library) are
modelled by executable functions that preserve exactly the properties the
code relies on (deterministic, injective digests; verify-by-rehash).
-/

/-- Equality of request outcomes is decidable, so concrete runs evaluate. -/
instance exceptDecEq {ε α : Type} [DecidableEq ε] [DecidableEq α] :
    DecidableEq (Except ε α) := fun x y =>
  match x, y with
  | .ok a, .ok b =>
    if h : a = b then isTrue (by rw [h])
    else isFalse (by intro hc; cases hc; exact h rfl)
  | .ok _, .error _ => isFalse (by intro hc; cases hc)
  | .error _, .ok _ => isFalse (by intro hc; cases hc)
  | .error e, .error f =>
    if h : e = f then isTrue (by rw [h])
    else isFalse (by intro hc; cases hc; exact h rfl)

/-- Python's whitespace set as used by `str.strip()` (ASCII fragment). -/
def isPySpace (c : Char) : Bool :=
  c == ' ' || c == '\t' || c == '\n' || c == '\r' || c == '\x0b' || c == '\x0c'

/-- Drop leading whitespace from a character list. -/
def stripLeftL (l : List Char) : List Char := l.dropWhile isPySpace

/-- Drop trailing whitespace from a character list. -/
def stripRightL (l : List Char) : List Char := (l.reverse.dropWhile isPySpace).reverse

/-- Both-ends whitespace strip on character lists. -/
def pyStripL (l : List Char) : List Char := stripLeftL (stripRightL l)

/-- Model of Python's `str.strip()` (no arguments): removes leading and
trailing whitespace. -/
def pyStrip (s : String) : String := ⟨pyStripL s.data⟩

/-- Model of Python's `str.lower()`: character-wise lowercasing. -/
def pyLower (s : String) : String := ⟨s.data.map Char.toLower⟩

/-- An HTTP error as raised by `HTTPException(status_code=..., detail=...)`. -/
structure HTTPError where
  status : Nat
  detail : String
deriving DecidableEq

/-- `main.py` register: `HTTPException(400, "Email already registered")`. -/
def DuplicateEmail : HTTPError := { status := 400, detail := "Email already registered" }

/-- `main.py` login: `HTTPException(401, "Invalid credentials")`. -/
def InvalidCredentials : HTTPError := { status := 401, detail := "Invalid credentials" }

/-- `main.py` reset_password: `HTTPException(400, "Password too short")`. -/
def PasswordTooShort : HTTPError := { status := 400, detail := "Password too short" }

/-- `main.py` reset_password: `HTTPException(400, "Invalid or expired token")`. -/
def InvalidOrExpiredToken : HTTPError := { status := 400, detail := "Invalid or expired token" }

/-- `main.py` reset_password, missing owner: `HTTPException(400, "Invalid token")`. -/
def InvalidTokenErr : HTTPError := { status := 400, detail := "Invalid token" }

/-- `auth_deps.py` get_current_user: `HTTPException(401, "Invalid or expired token")`. -/
def InvalidOrExpiredTokenAuth : HTTPError := { status := 401, detail := "Invalid or expired token" }

/-- `auth_deps.py` get_current_user: `HTTPException(401, "User not found")`. -/
def UserNotFoundErr : HTTPError := { status := 401, detail := "User not found" }

/-- `main.py` upload_document: `HTTPException(402, "Free limit reached")`. -/
def QuotaExceeded : HTTPError := { status := 402, detail := "Free limit reached" }

/-- `main.py` get_document: `HTTPException(404, "Document not found")`. -/
def DocumentNotFound : HTTPError := { status := 404, detail := "Document not found" }

/-- `admin_auth.py`: `HTTPException(500, "ADMIN_KEY not set")`. -/
def AdminKeyNotSet : HTTPError := { status := 500, detail := "ADMIN_KEY not set" }

/-- `admin_auth.py`: `HTTPException(401, "Invalid admin key")`. -/
def InvalidAdminKey : HTTPError := { status := 401, detail := "Invalid admin key" }

/-- A row of the `users` table (`models.py`, class `User`). -/
structure User where
  id : Nat
  email : String
  password_hash : String
  is_paid : Bool
  free_docs_used : Nat
  created_at : Nat
deriving DecidableEq

/-- A row of the `documents` table (`models.py`, class `Document`). -/
structure Document where
  id : Nat
  user_id : Nat
  original_filename : String
  stored_filename : String
  stored_path : String
  status : String
  review_notes : Option String
  created_at : Nat
deriving DecidableEq

/-- A row of the `password_reset_tokens` table (`models.py`,
class `PasswordResetToken`). -/
structure PasswordResetToken where
  id : Nat
  user_id : Nat
  token_hash : String
  expires_at : Nat
  used_at : Option Nat
  created_at : Nat
deriving DecidableEq

/-- The durable store: the three tables plus the autoincrement counters the
database assigns primary keys from. -/
structure DB where
  users : List User
  documents : List Document
  reset_tokens : List PasswordResetToken
  next_user_id : Nat
  next_doc_id : Nat
  next_token_id : Nat
deriving DecidableEq

/-- Model of `hash_token` in `main.py` (`hashlib.sha256(token.encode()).hexdigest()`):
an injective, deterministic one-way digest, represented by tagging. -/
def hash_token (token : String) : String := "sha256:" ++ token

/-- Model of passlib's `pwd_context.hash` (pbkdf2_sha256): a deterministic
digest; verification works by re-deriving the digest. -/
def pwd_context_hash (secret : String) : String := "pbkdf2_sha256$" ++ secret

/-- Model of passlib's `pwd_context.verify`: succeeds exactly when the stored
digest is the digest of the presented secret. -/
def pwd_context_verify (secret stored : String) : Bool := stored == pwd_context_hash secret

/-- `auth_utils.py`: `pwd_context.hash(password.strip())`. -/
def hash_password (password : String) : String := pwd_context_hash (pyStrip password)

/-- `auth_utils.py`: `pwd_context.verify(password.strip(), password_hash)`. -/
def verify_password (password password_hash : String) : Bool :=
  pwd_context_verify (pyStrip password) password_hash

/-- `auth_utils.py` constants. -/
def JWT_SECRET : String := "change_me_super_long"

/-- `auth_utils.py` constants. -/
def JWT_ALG : String := "HS256"

/-- `auth_utils.py`: 7 days in minutes. -/
def ACCESS_TOKEN_MINUTES : Nat := 60 * 24 * 7

/-- Model of a signed JWT as produced by `jose.jwt.encode`: the payload together
with the signing key and algorithm (standing in for the signature). -/
structure JWTPayload where
  sub : Option String
  exp : Nat
  key : String
  alg : String
deriving DecidableEq

/-- `auth_utils.py` `create_access_token`: payload `sub = str(user_id)`,
`exp = now + ACCESS_TOKEN_MINUTES`, signed with `JWT_SECRET` / `JWT_ALG`. -/
def create_access_token (user_id : Nat) (now : Nat) : JWTPayload :=
  { sub := some (toString user_id), exp := now + ACCESS_TOKEN_MINUTES,
    key := JWT_SECRET, alg := JWT_ALG }

/-- Model of `jose.jwt.decode`: returns the payload's `sub` when the signature
(key and algorithm) checks out and the token is not expired, fails otherwise. -/
def jwt_decode (tok : JWTPayload) (key alg : String) (now : Nat) : Option (Option String) :=
  if tok.key == key && tok.alg == alg && decide (now < tok.exp) then some tok.sub else none

/-- Model of Python's `int(...)` on the decimal `sub` claim (which
`create_access_token` sets to `str(user_id)`): parses a non-negative decimal
string and fails on anything else, including the absent claim — the code
catches exactly these failures as a bad token. -/
def pyIntNat? (s : String) : Option Nat :=
  if s.data ≠ [] ∧ s.data.all Char.isDigit then
    some (s.data.foldl (fun acc c => acc * 10 + (c.toNat - 48)) 0)
  else none

/-- `auth_deps.py` `get_current_user`: decode the bearer token (any decode or
`int()` failure becomes a 401 with detail "Invalid or expired token"), then look
the user up (a missing user becomes a 401 with detail "User not found"). -/
def get_current_user (db : DB) (now : Nat) (creds : JWTPayload) : Except HTTPError User :=
  match jwt_decode creds JWT_SECRET JWT_ALG now with
  | none => .error InvalidOrExpiredTokenAuth
  | some sub =>
    match sub.bind pyIntNat? with
    | none => .error InvalidOrExpiredTokenAuth
    | some user_id =>
      match db.users.find? (fun u => u.id == user_id) with
      | none => .error UserNotFoundErr
      | some u => .ok u

/-- Response of `POST /auth/register`. -/
structure RegisterResp where
  user_id : Nat
  token : JWTPayload
deriving DecidableEq

/-- The user row inserted by a successful registration: normalized email,
hashed password, non-paid, zero free counter. -/
def mkNewUser (db : DB) (now : Nat) (email password : String) : User :=
  { id := db.next_user_id, email := pyStrip (pyLower email),
    password_hash := hash_password password,
    is_paid := false, free_docs_used := 0, created_at := now }

/-- `main.py` `register`: normalize the email (`lower().strip()`), reject a
duplicate, otherwise insert a fresh non-paid user with a zero counter. -/
def register (db : DB) (now : Nat) (email password : String) :
    DB × Except HTTPError RegisterResp :=
  match db.users.find? (fun u => u.email == pyStrip (pyLower email)) with
  | some _ => (db, .error DuplicateEmail)
  | none =>
    ({ db with users := db.users ++ [mkNewUser db now email password],
               next_user_id := db.next_user_id + 1 },
     .ok { user_id := db.next_user_id, token := create_access_token db.next_user_id now })

/-- Response of `POST /auth/login`. -/
structure LoginResp where
  user_id : Nat
  token : JWTPayload
  free_docs_used : Nat
  is_paid : Bool
deriving DecidableEq

/-- `main.py` `login`: normalize the email, look the user up, verify the
password; both failure modes collapse to 401 "Invalid credentials". -/
def login (db : DB) (now : Nat) (email password : String) : Except HTTPError LoginResp :=
  let email := pyStrip (pyLower email)
  match db.users.find? (fun u => u.email == email) with
  | none => .error InvalidCredentials
  | some user =>
    if verify_password password user.password_hash then
      .ok { user_id := user.id, token := create_access_token user.id now,
            free_docs_used := user.free_docs_used, is_paid := user.is_paid }
    else .error InvalidCredentials

/-- Response shape `return ok True` of the forgot/reset endpoints. -/
structure OkResp where
  ok : Bool
deriving DecidableEq

/-- `main.py` `forgot_password`: normalize the email; on an unknown email
return the same success shape with no state change; on a known email store a
new reset token (sha256 of the random secret, 30-minute expiry) and kick off
the background email task (no store effect). `raw_token` stands for the value
drawn from `secrets.token_urlsafe(32)`. -/
def forgot_password (db : DB) (now : Nat) (email raw_token : String) :
    DB × Except HTTPError OkResp :=
  let email := pyStrip (pyLower email)
  match db.users.find? (fun u => u.email == email) with
  | none => (db, .ok { ok := true })
  | some user =>
    let reset : PasswordResetToken :=
      { id := db.next_token_id, user_id := user.id,
        token_hash := hash_token raw_token,
        expires_at := now + 30, used_at := none, created_at := now }
    ({ db with reset_tokens := db.reset_tokens ++ [reset],
               next_token_id := db.next_token_id + 1 },
     .ok { ok := true })

/-- The user-row update of a successful reset: replace the password hash of
the row whose id matches. -/
def setPwd (i : Nat) (new_password : String) (u : User) : User :=
  if u.id == i then { u with password_hash := hash_password new_password } else u

/-- The token-row update of a successful reset: mark the row whose id matches
as used now. -/
def setUsed (tid : Nat) (now : Nat) (r : PasswordResetToken) : PasswordResetToken :=
  if r.id == tid then { r with used_at := some now } else r

/-- `main.py` `reset_password`: reject a short password; look the token up by
digest; reject when absent, already used, or past expiry; then set the owner's
password hash and the token's `used_at` in one commit. -/
def reset_password (db : DB) (now : Nat) (token new_password : String) :
    DB × Except HTTPError OkResp :=
  if new_password.length < 8 then (db, .error PasswordTooShort)
  else
    match db.reset_tokens.find? (fun r => r.token_hash == hash_token token) with
    | none => (db, .error InvalidOrExpiredToken)
    | some reset =>
      if reset.used_at.isSome ∨ reset.expires_at < now then
        (db, .error InvalidOrExpiredToken)
      else
        match db.users.find? (fun u => u.id == reset.user_id) with
        | none => (db, .error InvalidTokenErr)
        | some user =>
          ({ db with
              users := db.users.map (setPwd user.id new_password),
              reset_tokens := db.reset_tokens.map (setUsed reset.id now) },
           .ok { ok := true })

/-- Model of `os.path.splitext(name)[1]`: the suffix starting at the last dot,
empty when there is no dot beyond the leading dots. -/
def splitext_ext (name : String) : String :=
  let l := name.data
  let leading := l.takeWhile (fun c => c == '.')
  let rest := l.drop leading.length
  let tail := rest.reverse.takeWhile (fun c => !(c == '.'))
  if tail.length < rest.length then ⟨'.' :: tail.reverse⟩ else ""

/-- `file.filename or "unknown"`: the original name, with a falsy filename
(absent or empty) replaced by "unknown". -/
def uploadOriginalName (filename : Option String) : String :=
  match filename with
  | some fn => if fn == "" then "unknown" else fn
  | none => "unknown"

/-- The extension kept for the stored name: `os.path.splitext(...)[1]` when
the filename is truthy, empty otherwise. -/
def uploadExt (filename : Option String) : String :=
  match filename with
  | some fn => if fn == "" then "" else splitext_ext fn
  | none => ""

/-- The document row recorded by an accepted upload. -/
def mkUploadDoc (db : DB) (now : Nat) (owner : Nat)
    (filename : Option String) (uuid_hex : String) : Document :=
  { id := db.next_doc_id, user_id := owner,
    original_filename := uploadOriginalName filename,
    stored_filename := uuid_hex ++ uploadExt filename,
    stored_path := "storage/" ++ (uuid_hex ++ uploadExt filename),
    status := "uploaded", review_notes := none, created_at := now }

/-- The user-row update of an accepted free-tier upload: increment the free
counter of the row whose id matches. -/
def bumpFree (i : Nat) (u : User) : User :=
  if u.id == i then { u with free_docs_used := u.free_docs_used + 1 } else u

/-- `main.py` `upload_document`, composed with the `get_current_user`
dependency's lookup: gate on the quota (`not is_paid and free_docs_used >= 3`
denies with 402), write the file under a fresh name (`uuid_hex` stands for
`uuid.uuid4().hex`), record the document row, and increment the uploader's
free counter when not paid — all in one commit. -/
def upload_document (db : DB) (now : Nat) (user_id : Nat)
    (filename : Option String) (uuid_hex : String) :
    DB × Except HTTPError Nat :=
  match db.users.find? (fun u => u.id == user_id) with
  | none => (db, .error UserNotFoundErr)
  | some current_user =>
    if current_user.is_paid = false ∧ 3 ≤ current_user.free_docs_used then
      (db, .error QuotaExceeded)
    else
      ({ db with
          users := if current_user.is_paid then db.users
                   else db.users.map (bumpFree current_user.id),
          documents := db.documents ++ [mkUploadDoc db now current_user.id filename uuid_hex],
          next_doc_id := db.next_doc_id + 1 },
       .ok db.next_doc_id)

/-- One item of the `GET /documents` response. -/
structure DocListItem where
  document_id : Nat
  original_filename : String
  stored_filename : String
  created_at : Nat
  status : String
deriving DecidableEq

/-- Rendering of a document row into a `GET /documents` response item. -/
def docItem (d : Document) : DocListItem :=
  { document_id := d.id, original_filename := d.original_filename,
    stored_filename := d.stored_filename, created_at := d.created_at,
    status := d.status }

/-- Insert a document into a list kept sorted by descending id. -/
def insertByIdDesc (d : Document) : List Document → List Document
  | [] => [d]
  | x :: xs => if x.id ≤ d.id then d :: x :: xs else x :: insertByIdDesc d xs

/-- Insertion sort by descending id, modelling `order_by(Document.id.desc())`. -/
def sortByIdDesc : List Document → List Document
  | [] => []
  | x :: xs => insertByIdDesc x (sortByIdDesc xs)

/-- `main.py` `list_documents`: the authenticated user's documents, ordered by
descending id, rendered to response items. -/
def list_documents (db : DB) (user_id : Nat) : List DocListItem :=
  (sortByIdDesc (db.documents.filter (fun d => d.user_id == user_id))).map docItem

/-- `main.py` `get_document`: the document by id, only when owned by the
caller; absence and foreign ownership both surface as 404. -/
def get_document (db : DB) (user_id : Nat) (document_id : Nat) :
    Except HTTPError Document :=
  match db.documents.find? (fun d => d.id == document_id && d.user_id == user_id) with
  | none => .error DocumentNotFound
  | some d => .ok d

/-- `admin_auth.py` `require_admin`: 500 when the expected key is unset, 401
when the header is missing, empty, or different from the expected key. -/
def require_admin (admin_key_env : String) (x_admin_key : Option String) :
    Except HTTPError Unit :=
  if admin_key_env == "" then .error AdminKeyNotSet
  else
    match x_admin_key with
    | none => .error InvalidAdminKey
    | some k => if k == "" || !(k == admin_key_env) then .error InvalidAdminKey else .ok ()

/-- `main.py` `admin_list_users`: all users, behind the admin gate. -/
def admin_list_users (db : DB) (admin_key_env : String) (x_admin_key : Option String) :
    Except HTTPError (List User) :=
  match require_admin admin_key_env x_admin_key with
  | .error e => .error e
  | .ok _ => .ok db.users

/-- The allowed document status values of the data model. -/
def validStatuses : List String := ["uploaded", "in_review", "completed"]

/-- `main.py`: `HTTPException(400, "Invalid status")` of the admin status
endpoint described by the specification. -/
def InvalidStatus : HTTPError := { status := 400, detail := "Invalid status" }

/-- The document-row update of the modelled admin status endpoint: set the
status of the row whose id matches. -/
def setDocStatus (document_id : Nat) (new_status : String) (d : Document) : Document :=
  if d.id == document_id then { d with status := new_status } else d

/-- Modelled from the spec: the admin `setStatus` endpoint is not present under
`src/` (the admin surface there carries only the user listing and the
`require_admin` gate); per the specification it is admin-only, rejects any
`newStatus` outside the three enum values with InvalidStatus, and otherwise
updates the document's status to the given value. -/
def set_status (db : DB) (admin_key_env : String) (x_admin_key : Option String)
    (document_id : Nat) (new_status : String) : DB × Except HTTPError OkResp :=
  match require_admin admin_key_env x_admin_key with
  | .error e => (db, .error e)
  | .ok _ =>
    if new_status ∈ validStatuses then
      match db.documents.find? (fun d => d.id == document_id) with
      | none => (db, .error DocumentNotFound)
      | some _ =>
        ({ db with documents := db.documents.map (setDocStatus document_id new_status) },
         .ok { ok := true })
    else (db, .error InvalidStatus)

/-- The operations of the system, for stating store-level invariants.  Each
carries the request data the corresponding handler consumes (with `upload`'s
`user_id` standing for the authenticated caller). -/
inductive Op where
  | register (email password : String)
  | login (email password : String)
  | forgot_password (email raw_token : String)
  | reset_password (token new_password : String)
  | upload (user_id : Nat) (filename : Option String) (uuid_hex : String)
  | list_docs (user_id : Nat)
  | admin_list (admin_key_env : String) (x_admin_key : Option String)
deriving DecidableEq

/-- The store after one operation.  Read-only handlers (`login`,
`list_documents`, `admin_list_users`) perform no writes and leave the store as
it is. -/
def step (db : DB) (now : Nat) : Op → DB
  | .register e p => (register db now e p).1
  | .login _ _ => db
  | .forgot_password e t => (forgot_password db now e t).1
  | .reset_password t np => (reset_password db now t np).1
  | .upload uid fn uh => (upload_document db now uid fn uh).1
  | .list_docs _ => db
  | .admin_list _ _ => db

/-- The reset-consumption validity condition in the words of the claim and of
the data-model invariant: a matching stored token, unused, with the current
time strictly before `expires_at`.  Kept for comparison with the code. -/
def spec_token_valid_strict (db : DB) (now : Nat) (secret : String) : Bool :=
  db.reset_tokens.any (fun r =>
    r.token_hash == hash_token secret && r.used_at == none && decide (now < r.expires_at))

/-- The reset-consumption validity condition the code enforces: a matching
stored token, unused, not yet strictly past expiry (`expires_at < now` is the
rejection, so `now = expires_at` is still accepted). -/
def token_consumable (db : DB) (now : Nat) (secret : String) : Bool :=
  db.reset_tokens.any (fun r =>
    r.token_hash == hash_token secret && r.used_at == none && decide (now ≤ r.expires_at))

/-- A sample user row for concrete runs. -/
def sampleUser (i : Nat) (e : String) (paid : Bool) (used : Nat) : User :=
  { id := i, email := e, password_hash := hash_password "pw123456",
    is_paid := paid, free_docs_used := used, created_at := 0 }

/-- A store with one fresh non-paid user. -/
def dbOneUser : DB :=
  { users := [sampleUser 1 "a@x.com" false 0], documents := [], reset_tokens := [],
    next_user_id := 2, next_doc_id := 1, next_token_id := 1 }

/-- A reset token for user 1, unused, expiring at time 100. -/
def sampleToken : PasswordResetToken :=
  { id := 1, user_id := 1, token_hash := hash_token "secret-token",
    expires_at := 100, used_at := none, created_at := 70 }

/-- A store with one user and one outstanding reset token. -/
def dbWithToken : DB :=
  { users := [sampleUser 1 "a@x.com" false 0], documents := [],
    reset_tokens := [sampleToken],
    next_user_id := 2, next_doc_id := 1, next_token_id := 2 }

/-- Sample documents for listing runs (two owned by user 1, one by user 2;
ids increase with creation time). -/
def sampleDocA : Document :=
  { id := 1, user_id := 1, original_filename := "a.pdf", stored_filename := "h1.pdf",
    stored_path := "storage/h1.pdf", status := "uploaded", review_notes := none,
    created_at := 5 }

/-- Second sample document, created later than the first. -/
def sampleDocB : Document :=
  { id := 2, user_id := 1, original_filename := "b.pdf", stored_filename := "h2.pdf",
    stored_path := "storage/h2.pdf", status := "uploaded", review_notes := none,
    created_at := 9 }

/-- Third sample document, owned by another user. -/
def sampleDocC : Document :=
  { id := 3, user_id := 2, original_filename := "c.pdf", stored_filename := "h3.pdf",
    stored_path := "storage/h3.pdf", status := "uploaded", review_notes := none,
    created_at := 11 }

/-- A store with two users and three documents. -/
def dbWithDocs : DB :=
  { users := [sampleUser 1 "a@x.com" false 2, sampleUser 2 "b@x.com" true 0],
    documents := [sampleDocA, sampleDocB, sampleDocC],
    reset_tokens := [],
    next_user_id := 3, next_doc_id := 4, next_token_id := 1 }

/-- A bearer token signed with the wrong key. -/
def tokWrongKey : JWTPayload :=
  { sub := some "1", exp := 1000, key := "wrong_key", alg := "HS256" }

/-- A correctly signed, unexpired bearer token whose encoded user id matches
no stored user of `dbOneUser`. -/
def tokGhostUser : JWTPayload :=
  { sub := some "99", exp := 1000, key := JWT_SECRET, alg := JWT_ALG }

/-- The empty store, as after table creation. -/
def dbEmpty : DB :=
  { users := [], documents := [], reset_tokens := [],
    next_user_id := 1, next_doc_id := 1, next_token_id := 1 }

/-! ## Helper lemmas -/

@[simp]
theorem isOk_ok {ε α : Type} (a : α) : (Except.ok a : Except ε α).isOk = true := rfl

@[simp]
theorem isOk_error {ε α : Type} (e : ε) : (Except.error e : Except ε α).isOk = false := rfl

theorem dropWhile_head_false {α : Type} {p : α → Bool} :
    ∀ (l : List α) {c : α} {t : List α}, l.dropWhile p = c :: t → p c = false := by
  intro l
  induction l with
  | nil => intro c t h; simp [List.dropWhile] at h
  | cons a l ih =>
    intro c t h
    rw [List.dropWhile_cons] at h
    by_cases hpa : p a = true
    · rw [if_pos hpa] at h
      exact ih h
    · rw [if_neg hpa] at h
      cases h
      simpa using hpa

theorem dropWhile_idem {α : Type} (p : α → Bool) (l : List α) :
    (l.dropWhile p).dropWhile p = l.dropWhile p := by
  cases h : l.dropWhile p with
  | nil => simp
  | cons c t =>
    rw [List.dropWhile_cons, dropWhile_head_false l h]
    simp

theorem length_dropWhile_le {α : Type} (p : α → Bool) (l : List α) :
    (l.dropWhile p).length ≤ l.length := by
  induction l with
  | nil => simp
  | cons a l ih =>
    rw [List.dropWhile_cons]
    by_cases hpa : p a = true
    · rw [if_pos hpa]
      exact Nat.le_trans ih (by simp)
    · rw [if_neg hpa]

theorem dropWhile_rev_drop {α : Type} (p : α → Bool) :
    ∀ (x : List α), (x.reverse).dropWhile p = x.reverse →
      ((x.dropWhile p).reverse).dropWhile p = (x.dropWhile p).reverse := by
  intro x
  induction x with
  | nil => intro _; simp
  | cons a t ih =>
    intro h
    by_cases hpa : p a = true
    · have h1 : (t.reverse).dropWhile p = t.reverse := by
        rw [List.reverse_cons] at h
        cases hr : t.reverse with
        | nil =>
          rw [hr] at h
          simp [List.dropWhile_cons, hpa] at h
        | cons c w =>
          rw [hr] at h
          rw [List.cons_append, List.dropWhile_cons] at h
          by_cases hpc : p c = true
          · rw [if_pos hpc] at h
            have hlen := length_dropWhile_le p (w ++ [a])
            rw [h] at hlen
            simp at hlen
          · rw [List.dropWhile_cons, if_neg hpc]
      rw [List.dropWhile_cons, if_pos hpa]
      exact ih h1
    · rw [List.dropWhile_cons, if_neg hpa]
      exact h

theorem stripRight_of_stripLeft_stripRight (l : List Char) :
    stripRightL (stripLeftL (stripRightL l)) = stripLeftL (stripRightL l) := by
  unfold stripRightL stripLeftL
  have hx : (((l.reverse.dropWhile isPySpace).reverse).reverse).dropWhile isPySpace
      = ((l.reverse.dropWhile isPySpace).reverse).reverse := by
    rw [List.reverse_reverse]
    exact dropWhile_idem isPySpace l.reverse
  have := dropWhile_rev_drop isPySpace ((l.reverse.dropWhile isPySpace).reverse) hx
  rw [this, List.reverse_reverse]

theorem pyStripL_idem (l : List Char) : pyStripL (pyStripL l) = pyStripL l := by
  show stripLeftL (stripRightL (stripLeftL (stripRightL l))) = stripLeftL (stripRightL l)
  rw [stripRight_of_stripLeft_stripRight]
  show (((l.reverse.dropWhile isPySpace).reverse).dropWhile isPySpace).dropWhile isPySpace
      = ((l.reverse.dropWhile isPySpace).reverse).dropWhile isPySpace
  exact dropWhile_idem isPySpace _

theorem pyStrip_idem (s : String) : pyStrip (pyStrip s) = pyStrip s := by
  show String.mk (pyStripL (pyStripL s.data)) = String.mk (pyStripL s.data)
  rw [pyStripL_idem]

theorem pyStripL_append_space (l : List Char) : pyStripL (l ++ [' ']) = pyStripL l := by
  show stripLeftL (stripRightL (l ++ [' '])) = stripLeftL (stripRightL l)
  unfold stripRightL
  rw [List.reverse_append]
  show stripLeftL ((List.dropWhile isPySpace (' ' :: l.reverse)).reverse) = _
  rw [List.dropWhile_cons]
  simp [isPySpace]

theorem pyStrip_append_space (p : String) : pyStrip (p ++ " ") = pyStrip p := by
  show String.mk (pyStripL (p ++ " ").data) = String.mk (pyStripL p.data)
  rw [String.data_append]
  show String.mk (pyStripL (p.data ++ [' '])) = String.mk (pyStripL p.data)
  rw [pyStripL_append_space]

theorem find?_map_pred {α : Type} (f : α → α) (p : α → Bool)
    (hp : ∀ x, p (f x) = p x) (l : List α) :
    (l.map f).find? p = Option.map f (l.find? p) := by
  rw [List.find?_map]
  have hfp : p ∘ f = p := by
    funext x
    exact hp x
  rw [hfp]

theorem pairwise_key_inj {α : Type} (key : α → String) (l : List α)
    (hl : l.Pairwise (fun a b => key a ≠ key b)) :
    ∀ a ∈ l, ∀ b ∈ l, key a = key b → a = b := by
  induction hl with
  | nil => intro a ha; simp at ha
  | cons hhead _ ih =>
    intro a ha b hb hk
    rcases List.mem_cons.mp ha with rfl | ha'
    · rcases List.mem_cons.mp hb with rfl | hb'
      · rfl
      · exact absurd hk (hhead b hb')
    · rcases List.mem_cons.mp hb with rfl | hb'
      · exact absurd hk.symm (hhead a ha')
      · exact ih a ha' b hb' hk

theorem find?_key_eq {α : Type} (key : α → String) (h : String) :
    ∀ (l : List α), l.Pairwise (fun a b => key a ≠ key b) →
      ∀ r ∈ l, key r = h → l.find? (fun x => key x == h) = some r := by
  intro l
  induction l with
  | nil => intro _ r hr; simp at hr
  | cons a t ih =>
    intro hl r hr hk
    have hl' := List.pairwise_cons.mp hl
    rcases List.mem_cons.mp hr with rfl | hr'
    · rw [List.find?_cons]
      simp [hk]
    · have hka : ¬ (key a == h) = true := by
        intro hcon
        have : key a = h := by simpa using hcon
        exact (hl'.1 r hr') (this.trans hk.symm)
      rw [List.find?_cons]
      simp only [Bool.not_eq_true] at hka
      rw [hka]
      exact ih hl'.2 r hr' hk

theorem mem_insertByIdDesc (d x : Document) :
    ∀ (l : List Document), x ∈ insertByIdDesc d l ↔ x = d ∨ x ∈ l := by
  intro l
  induction l with
  | nil => simp [insertByIdDesc]
  | cons a t ih =>
    by_cases hle : a.id ≤ d.id
    · simp [insertByIdDesc, if_pos hle]
    · simp [insertByIdDesc, if_neg hle, ih]
      tauto

theorem perm_insertByIdDesc (d : Document) :
    ∀ (l : List Document), (insertByIdDesc d l).Perm (d :: l) := by
  intro l
  induction l with
  | nil => simp [insertByIdDesc]
  | cons a t ih =>
    by_cases hle : a.id ≤ d.id
    · rw [insertByIdDesc, if_pos hle]
    · rw [insertByIdDesc, if_neg hle]
      exact (ih.cons a).trans (List.Perm.swap d a t)

theorem pairwise_insertByIdDesc (d : Document) :
    ∀ (l : List Document), l.Pairwise (fun a b => b.id ≤ a.id) →
      (insertByIdDesc d l).Pairwise (fun a b => b.id ≤ a.id) := by
  intro l
  induction l with
  | nil => intro _; simp [insertByIdDesc]
  | cons a t ih =>
    intro hl
    have hl' := List.pairwise_cons.mp hl
    by_cases hle : a.id ≤ d.id
    · rw [insertByIdDesc, if_pos hle]
      refine List.pairwise_cons.mpr ⟨?_, hl⟩
      intro y hy
      rcases List.mem_cons.mp hy with rfl | hy'
      · exact hle
      · exact Nat.le_trans (hl'.1 y hy') hle
    · rw [insertByIdDesc, if_neg hle]
      refine List.pairwise_cons.mpr ⟨?_, ih hl'.2⟩
      intro y hy
      rcases (mem_insertByIdDesc d y t).mp hy with rfl | hy'
      · exact Nat.le_of_lt (Nat.lt_of_not_le hle)
      · exact hl'.1 y hy'

theorem sortByIdDesc_perm : ∀ (l : List Document), (sortByIdDesc l).Perm l := by
  intro l
  induction l with
  | nil => simp [sortByIdDesc]
  | cons a t ih =>
    rw [sortByIdDesc]
    exact (perm_insertByIdDesc a (sortByIdDesc t)).trans (ih.cons a)

theorem sortByIdDesc_pairwise :
    ∀ (l : List Document), (sortByIdDesc l).Pairwise (fun a b => b.id ≤ a.id) := by
  intro l
  induction l with
  | nil => simp [sortByIdDesc]
  | cons a t ih =>
    rw [sortByIdDesc]
    exact pairwise_insertByIdDesc a (sortByIdDesc t) ih

theorem upload_eq_denied (db : DB) (now uid : Nat) (fn : Option String) (uh : String)
    (u : User) (hu : db.users.find? (fun x => x.id == uid) = some u)
    (hq : u.is_paid = false ∧ 3 ≤ u.free_docs_used) :
    upload_document db now uid fn uh = (db, .error QuotaExceeded) := by
  unfold upload_document
  simp only [hu]
  rw [if_pos hq]

theorem upload_eq_ok (db : DB) (now uid : Nat) (fn : Option String) (uh : String)
    (u : User) (hu : db.users.find? (fun x => x.id == uid) = some u)
    (hq : ¬(u.is_paid = false ∧ 3 ≤ u.free_docs_used)) :
    upload_document db now uid fn uh =
      ({ db with
          users := if u.is_paid then db.users else db.users.map (bumpFree u.id),
          documents := db.documents ++ [mkUploadDoc db now u.id fn uh],
          next_doc_id := db.next_doc_id + 1 },
       .ok db.next_doc_id) := by
  unfold upload_document
  simp only [hu]
  rw [if_neg hq]

theorem bumpFree_id (i : Nat) (u : User) : (bumpFree i u).id = u.id := by
  unfold bumpFree
  by_cases h : u.id == i
  · rw [if_pos h]
  · rw [if_neg h]

theorem setPwd_id (i : Nat) (np : String) (u : User) : (setPwd i np u).id = u.id := by
  unfold setPwd
  by_cases h : u.id == i
  · rw [if_pos h]
  · rw [if_neg h]

theorem setPwd_free (i : Nat) (np : String) (u : User) :
    (setPwd i np u).free_docs_used = u.free_docs_used := by
  unfold setPwd
  by_cases h : u.id == i
  · rw [if_pos h]
  · rw [if_neg h]

theorem setUsed_hash (tid now : Nat) (r : PasswordResetToken) :
    (setUsed tid now r).token_hash = r.token_hash := by
  unfold setUsed
  by_cases h : r.id == tid
  · rw [if_pos h]
  · rw [if_neg h]

/-! ## Claim theorems -/

/-- C1: an upload is permitted exactly when the user is paid or has used fewer
than 3 free documents; a permitted upload by a non-paid user increments
`free_docs_used` by exactly one, a permitted upload by a paid user leaves the
users table unchanged, and a denied upload fails with QuotaExceeded (402,
"Free limit reached") leaving the whole store unchanged. -/
theorem upload_document_quota (db : DB) (now : Nat) (uid : Nat)
    (fn : Option String) (uh : String) (u : User)
    (hu : db.users.find? (fun x => x.id == uid) = some u) :
    ((upload_document db now uid fn uh).2.isOk = true
      ↔ (u.is_paid = true ∨ u.free_docs_used < 3))
    ∧ (u.is_paid = false → (upload_document db now uid fn uh).2.isOk = true →
        ∃ u', (upload_document db now uid fn uh).1.users.find? (fun x => x.id == uid) = some u'
          ∧ u'.free_docs_used = u.free_docs_used + 1)
    ∧ (u.is_paid = true → (upload_document db now uid fn uh).1.users = db.users)
    ∧ ((upload_document db now uid fn uh).2.isOk = false →
        (upload_document db now uid fn uh).2 = .error QuotaExceeded
        ∧ (upload_document db now uid fn uh).1 = db) := by
  by_cases hq : u.is_paid = false ∧ 3 ≤ u.free_docs_used
  · rw [upload_eq_denied db now uid fn uh u hu hq]
    rcases hq with ⟨h1, h2⟩
    refine ⟨?_, ?_, ?_, ?_⟩
    · simp [h1]
      omega
    · intro _ hok
      simp at hok
    · intro _
      rfl
    · intro _
      exact ⟨rfl, rfl⟩
  · rw [upload_eq_ok db now uid fn uh u hu hq]
    refine ⟨?_, ?_, ?_, ?_⟩
    · simp only [isOk_ok, true_iff]
      by_cases hpaid : u.is_paid = true
      · exact Or.inl hpaid
      · simp only [Bool.not_eq_true] at hpaid
        simp [hpaid] at hq
        omega
    · intro hpaid _
      simp only [hpaid, Bool.false_eq_true, if_false]
      rw [find?_map_pred (bumpFree u.id) (fun x => x.id == uid)
        (fun x => by show ((bumpFree u.id x).id == uid) = (x.id == uid); rw [bumpFree_id]) db.users]
      rw [hu]
      refine ⟨bumpFree u.id u, rfl, ?_⟩
      unfold bumpFree
      simp
    · intro hpaid
      simp [hpaid]
    · intro hok
      simp at hok

/-- C1 witness: a fresh non-paid user's upload is accepted and drives the
counter to one. -/
theorem upload_document_quota_witness :
    (((upload_document dbOneUser 7 1 none "h1").2.isOk = true
      ↔ ((sampleUser 1 "a@x.com" false 0).is_paid = true
         ∨ (sampleUser 1 "a@x.com" false 0).free_docs_used < 3))
    ∧ ((sampleUser 1 "a@x.com" false 0).is_paid = false →
        (upload_document dbOneUser 7 1 none "h1").2.isOk = true →
        ∃ u', (upload_document dbOneUser 7 1 none "h1").1.users.find? (fun x => x.id == 1) = some u'
          ∧ u'.free_docs_used = (sampleUser 1 "a@x.com" false 0).free_docs_used + 1)
    ∧ ((sampleUser 1 "a@x.com" false 0).is_paid = true →
        (upload_document dbOneUser 7 1 none "h1").1.users = dbOneUser.users)
    ∧ ((upload_document dbOneUser 7 1 none "h1").2.isOk = false →
        (upload_document dbOneUser 7 1 none "h1").2 = .error QuotaExceeded
        ∧ (upload_document dbOneUser 7 1 none "h1").1 = dbOneUser)) :=
  upload_document_quota dbOneUser 7 1 none "h1" (sampleUser 1 "a@x.com" false 0) (by decide)

theorem reset_eq_nofind (db : DB) (now : Nat) (tok np : String)
    (hlen : ¬ np.length < 8)
    (h : db.reset_tokens.find? (fun r => r.token_hash == hash_token tok) = none) :
    reset_password db now tok np = (db, .error InvalidOrExpiredToken) := by
  unfold reset_password
  rw [if_neg hlen]
  simp only [h]

theorem reset_eq_stale (db : DB) (now : Nat) (tok np : String)
    (hlen : ¬ np.length < 8) (r : PasswordResetToken)
    (h : db.reset_tokens.find? (fun x => x.token_hash == hash_token tok) = some r)
    (hst : r.used_at.isSome ∨ r.expires_at < now) :
    reset_password db now tok np = (db, .error InvalidOrExpiredToken) := by
  unfold reset_password
  rw [if_neg hlen]
  simp only [h]
  rw [if_pos hst]

theorem reset_eq_ok (db : DB) (now : Nat) (tok np : String)
    (hlen : ¬ np.length < 8) (r : PasswordResetToken) (user : User)
    (h : db.reset_tokens.find? (fun x => x.token_hash == hash_token tok) = some r)
    (hst : ¬(r.used_at.isSome ∨ r.expires_at < now))
    (hu : db.users.find? (fun x => x.id == r.user_id) = some user) :
    reset_password db now tok np =
      ({ db with
          users := db.users.map (setPwd user.id np),
          reset_tokens := db.reset_tokens.map (setUsed r.id now) },
       .ok { ok := true }) := by
  unfold reset_password
  rw [if_neg hlen]
  simp only [h]
  rw [if_neg hst]
  simp only [hu]

/-- C2 counterexample: at the instant `now = expires_at` the claim's strict
validity condition (`now < expires_at`) is false, yet consumption succeeds —
the code rejects only strictly-past expiry (`expires_at < now`). -/
theorem reset_password_strict_expiry_counterexample :
    spec_token_valid_strict dbWithToken 100 "secret-token" = false
    ∧ (reset_password dbWithToken 100 "secret-token" "password123").2 = .ok { ok := true } := by
  refine ⟨by decide, by decide⟩

/-- C2 (amended): with a well-formed store (token digests pairwise distinct,
every token's owner present) and a new password of admissible length,
consumption succeeds exactly when some stored token matches the presented
secret's digest, is unused, and the current time is at most its `expires_at`
(the code rejects only strictly-past expiry); every failure is
InvalidOrExpiredToken (400), and after a success any further attempt with the
same secret fails with InvalidOrExpiredToken — consumption succeeds at most
once. -/
theorem reset_password_consume (db : DB) (now : Nat) (tok np : String)
    (hlen : 8 ≤ np.length)
    (huniq : db.reset_tokens.Pairwise (fun a b => a.token_hash ≠ b.token_hash))
    (hwf : ∀ r ∈ db.reset_tokens, ∃ u ∈ db.users, u.id = r.user_id) :
    ((reset_password db now tok np).2.isOk = true ↔ token_consumable db now tok = true)
    ∧ ((reset_password db now tok np).2.isOk = false →
        (reset_password db now tok np).2 = .error InvalidOrExpiredToken)
    ∧ ((reset_password db now tok np).2.isOk = true →
        ∀ now2 np2, 8 ≤ np2.length →
          (reset_password (reset_password db now tok np).1 now2 tok np2).2
            = .error InvalidOrExpiredToken) := by
  have hlen' : ¬ np.length < 8 := by omega
  cases hfind : db.reset_tokens.find? (fun x => x.token_hash == hash_token tok) with
  | none =>
    rw [reset_eq_nofind db now tok np hlen' hfind]
    have hcons : token_consumable db now tok = false := by
      rw [token_consumable, List.any_eq_false]
      intro r0 hr0 hp0
      simp only [Bool.and_eq_true] at hp0
      exact (List.find?_eq_none.mp hfind r0 hr0) hp0.1.1
    refine ⟨?_, ?_, ?_⟩
    · rw [hcons]
      simp
    · intro _
      rfl
    · intro hok
      simp at hok
  | some r =>
    have hrhash' : r.token_hash = hash_token tok := by
      have h0 := List.find?_some hfind
      simpa using h0
    have hrmem : r ∈ db.reset_tokens := List.mem_of_find?_eq_some hfind
    by_cases hst : (r.used_at.isSome ∨ r.expires_at < now)
    · rw [reset_eq_stale db now tok np hlen' r hfind hst]
      have hcons : token_consumable db now tok = false := by
        rw [token_consumable, List.any_eq_false]
        intro r0 hr0 hp0
        simp only [Bool.and_eq_true, beq_iff_eq, decide_eq_true_eq] at hp0
        obtain ⟨⟨h0hash, h0used⟩, h0exp⟩ := hp0
        have heq : r0 = r :=
          pairwise_key_inj (fun x => x.token_hash) db.reset_tokens huniq
            r0 hr0 r hrmem (h0hash.trans hrhash'.symm)
        rw [heq] at h0used h0exp
        rcases hst with hused | hexp
        · rw [h0used] at hused
          simp at hused
        · omega
      refine ⟨?_, ?_, ?_⟩
      · rw [hcons]
        simp
      · intro _
        rfl
      · intro hok
        simp at hok
    · obtain ⟨user0, huser0mem, huser0id⟩ := hwf r hrmem
      cases hu : db.users.find? (fun x => x.id == r.user_id) with
      | none =>
        exact absurd (by simp [huser0id] : ((fun x => x.id == r.user_id) user0) = true)
          (List.find?_eq_none.mp hu user0 huser0mem)
      | some user =>
        rw [reset_eq_ok db now tok np hlen' r user hfind hst hu]
        rcases not_or.mp hst with ⟨hused, hexp⟩
        have husednone : r.used_at = none := Option.not_isSome_iff_eq_none.mp hused
        refine ⟨?_, ?_, ?_⟩
        · simp only [isOk_ok, true_iff]
          rw [token_consumable, List.any_eq_true]
          refine ⟨r, hrmem, ?_⟩
          simp only [Bool.and_eq_true, beq_iff_eq, decide_eq_true_eq]
          exact ⟨⟨hrhash', by rw [husednone]⟩, by omega⟩
        · intro hok
          simp at hok
        · intro _ now2 np2 hlen2
          have hlen2' : ¬ np2.length < 8 := by omega
          have hfind' : (db.reset_tokens.map (setUsed r.id now)).find?
              (fun x => x.token_hash == hash_token tok) = some (setUsed r.id now r) := by
            rw [find?_map_pred (setUsed r.id now) (fun x => x.token_hash == hash_token tok)
              (fun x => by
                show ((setUsed r.id now x).token_hash == hash_token tok) = (x.token_hash == hash_token tok)
                rw [setUsed_hash]) db.reset_tokens]
            rw [hfind]
            rfl
          rw [reset_eq_stale _ now2 tok np2 hlen2' (setUsed r.id now r) hfind' ?stale]
          case stale =>
            left
            unfold setUsed
            simp

/-- C2 witness: a fresh, unexpired token is consumed successfully at a
concrete store, and the theorem's hypotheses hold there by evaluation. -/
theorem reset_password_consume_witness :
    (((reset_password dbWithToken 80 "secret-token" "password123").2.isOk = true
      ↔ token_consumable dbWithToken 80 "secret-token" = true)
    ∧ ((reset_password dbWithToken 80 "secret-token" "password123").2.isOk = false →
        (reset_password dbWithToken 80 "secret-token" "password123").2 = .error InvalidOrExpiredToken)
    ∧ ((reset_password dbWithToken 80 "secret-token" "password123").2.isOk = true →
        ∀ now2 np2, 8 ≤ np2.length →
          (reset_password (reset_password dbWithToken 80 "secret-token" "password123").1
              now2 "secret-token" np2).2 = .error InvalidOrExpiredToken)) :=
  reset_password_consume dbWithToken 80 "secret-token" "password123"
    (by decide) (by decide) (by decide)

theorem reset_eq_short (db : DB) (now : Nat) (tok np : String)
    (h : np.length < 8) :
    reset_password db now tok np = (db, .error PasswordTooShort) := by
  unfold reset_password
  rw [if_pos h]

theorem reset_eq_nouser (db : DB) (now : Nat) (tok np : String)
    (hlen : ¬ np.length < 8) (r : PasswordResetToken)
    (h : db.reset_tokens.find? (fun x => x.token_hash == hash_token tok) = some r)
    (hst : ¬(r.used_at.isSome ∨ r.expires_at < now))
    (hu : db.users.find? (fun x => x.id == r.user_id) = none) :
    reset_password db now tok np = (db, .error InvalidTokenErr) := by
  unfold reset_password
  rw [if_neg hlen]
  simp only [h]
  rw [if_neg hst]
  simp only [hu]

/-- C3: reset consumption is atomic — a failing `reset_password` returns the
store exactly as it was, and a successful one returns a single store in which
the matched token is marked used now and the owner's password hash is
replaced, with the other tables and counters untouched; no state with only
one of the two updates is ever returned. -/
theorem reset_password_atomic (db : DB) (now : Nat) (tok np : String) :
    ((reset_password db now tok np).2.isOk = false → (reset_password db now tok np).1 = db)
    ∧ (∀ db' r0, reset_password db now tok np = (db', .ok r0) →
        ∃ t u, db.reset_tokens.find? (fun x => x.token_hash == hash_token tok) = some t
          ∧ db.users.find? (fun x => x.id == t.user_id) = some u
          ∧ db'.reset_tokens = db.reset_tokens.map (setUsed t.id now)
          ∧ db'.users = db.users.map (setPwd u.id np)
          ∧ db'.documents = db.documents
          ∧ db'.next_user_id = db.next_user_id
          ∧ db'.next_doc_id = db.next_doc_id
          ∧ db'.next_token_id = db.next_token_id) := by
  by_cases hlen : np.length < 8
  · rw [reset_eq_short db now tok np hlen]
    refine ⟨fun _ => rfl, ?_⟩
    intro db' r0 h
    rw [Prod.mk.injEq] at h
    exact absurd h.2 (by simp)
  · cases hfind : db.reset_tokens.find? (fun x => x.token_hash == hash_token tok) with
    | none =>
      refine ⟨?_, ?_⟩
      · intro _
        rw [reset_eq_nofind db now tok np hlen hfind]
      · intro db' r0 h
        rw [reset_eq_nofind db now tok np hlen hfind, Prod.mk.injEq] at h
        exact absurd h.2 (by simp)
    | some r =>
      by_cases hst : (r.used_at.isSome ∨ r.expires_at < now)
      · refine ⟨?_, ?_⟩
        · intro _
          rw [reset_eq_stale db now tok np hlen r hfind hst]
        · intro db' r0 h
          rw [reset_eq_stale db now tok np hlen r hfind hst, Prod.mk.injEq] at h
          exact absurd h.2 (by simp)
      · cases hu : db.users.find? (fun x => x.id == r.user_id) with
        | none =>
          refine ⟨?_, ?_⟩
          · intro _
            rw [reset_eq_nouser db now tok np hlen r hfind hst hu]
          · intro db' r0 h
            rw [reset_eq_nouser db now tok np hlen r hfind hst hu, Prod.mk.injEq] at h
            exact absurd h.2 (by simp)
        | some user =>
          refine ⟨?_, ?_⟩
          · intro hok
            rw [reset_eq_ok db now tok np hlen r user hfind hst hu] at hok
            simp at hok
          · intro db' r0 h
            rw [reset_eq_ok db now tok np hlen r user hfind hst hu, Prod.mk.injEq] at h
            obtain ⟨hdb, _⟩ := h
            subst hdb
            exact ⟨r, user, rfl, hu, rfl, rfl, rfl, rfl, rfl, rfl⟩

/-- C3 witness: at a concrete store the successful reset returns the store
with exactly the token-used and password-hash updates applied together. -/
theorem reset_password_atomic_witness :
    ∃ t u, dbWithToken.reset_tokens.find?
        (fun x => x.token_hash == hash_token "secret-token") = some t
      ∧ dbWithToken.users.find? (fun x => x.id == t.user_id) = some u
      ∧ (reset_password dbWithToken 80 "secret-token" "password123").1.reset_tokens
          = dbWithToken.reset_tokens.map (setUsed t.id 80)
      ∧ (reset_password dbWithToken 80 "secret-token" "password123").1.users
          = dbWithToken.users.map (setPwd u.id "password123")
      ∧ (reset_password dbWithToken 80 "secret-token" "password123").1.documents
          = dbWithToken.documents
      ∧ (reset_password dbWithToken 80 "secret-token" "password123").1.next_user_id
          = dbWithToken.next_user_id
      ∧ (reset_password dbWithToken 80 "secret-token" "password123").1.next_doc_id
          = dbWithToken.next_doc_id
      ∧ (reset_password dbWithToken 80 "secret-token" "password123").1.next_token_id
          = dbWithToken.next_token_id :=
  (reset_password_atomic dbWithToken 80 "secret-token" "password123").2
    (reset_password dbWithToken 80 "secret-token" "password123").1 { ok := true } (by decide)

/-- C4: forgot-password on an email matching no stored user returns the same
success-shaped response as any other run of the endpoint (all runs answer
`ok := true`), and on the unknown-email run the store — in particular the
reset-token table — is exactly unchanged. -/
theorem forgot_password_enum_resistant (db : DB) (now : Nat) (email raw : String)
    (h : db.users.find? (fun u => u.email == pyStrip (pyLower email)) = none) :
    forgot_password db now email raw = (db, .ok { ok := true })
    ∧ ∀ (db2 : DB) (now2 : Nat) (e2 r2 : String),
        (forgot_password db2 now2 e2 r2).2 = (forgot_password db now email raw).2 := by
  have h1 : forgot_password db now email raw = (db, .ok { ok := true }) := by
    unfold forgot_password
    simp only [h]
  refine ⟨h1, ?_⟩
  intro db2 now2 e2 r2
  rw [h1]
  unfold forgot_password
  cases hf : db2.users.find? (fun u => u.email == pyStrip (pyLower e2)) with
  | none => simp only [hf]
  | some u => simp only [hf]

/-- C4 witness: at a concrete store holding only `a@x.com`, a request for the
unknown `b@y.com` leaves the store unchanged and answers the shared success
shape. -/
theorem forgot_password_enum_resistant_witness :
    forgot_password dbOneUser 5 "b@y.com" "tok" = (dbOneUser, .ok { ok := true })
    ∧ ∀ (db2 : DB) (now2 : Nat) (e2 r2 : String),
        (forgot_password db2 now2 e2 r2).2 = (forgot_password dbOneUser 5 "b@y.com" "tok").2 :=
  forgot_password_enum_resistant dbOneUser 5 "b@y.com" "tok" (by decide)

theorem register_eq_dup (db : DB) (now : Nat) (e p : String) (u : User)
    (h : db.users.find? (fun x => x.email == pyStrip (pyLower e)) = some u) :
    register db now e p = (db, .error DuplicateEmail) := by
  unfold register
  simp only [h]

theorem register_eq_new (db : DB) (now : Nat) (e p : String)
    (h : db.users.find? (fun x => x.email == pyStrip (pyLower e)) = none) :
    register db now e p =
      ({ db with users := db.users ++ [mkNewUser db now e p],
                 next_user_id := db.next_user_id + 1 },
       .ok { user_id := db.next_user_id, token := create_access_token db.next_user_id now }) := by
  unfold register
  simp only [h]

/-- C5: after a successful registration, registering again with an email that
agrees with the first modulo case and surrounding whitespace fails with
DuplicateEmail and returns the store unchanged (no new user, existing rows
untouched). -/
theorem register_duplicate_email (db db1 : DB) (now now2 : Nat)
    (e1 p1 e2 p2 : String) (r : RegisterResp)
    (h1 : register db now e1 p1 = (db1, .ok r))
    (he : pyStrip (pyLower e2) = pyStrip (pyLower e1)) :
    register db1 now2 e2 p2 = (db1, .error DuplicateEmail) := by
  cases hf : db.users.find? (fun x => x.email == pyStrip (pyLower e1)) with
  | some u =>
    rw [register_eq_dup db now e1 p1 u hf, Prod.mk.injEq] at h1
    exact absurd h1.2 (by simp)
  | none =>
    rw [register_eq_new db now e1 p1 hf, Prod.mk.injEq] at h1
    obtain ⟨hdb, _⟩ := h1
    subst hdb
    apply register_eq_dup _ now2 e2 p2 (mkNewUser db now e1 p1)
    show (db.users ++ [mkNewUser db now e1 p1]).find?
        (fun x => x.email == pyStrip (pyLower e2)) = some (mkNewUser db now e1 p1)
    rw [he, List.find?_append, hf]
    simp [mkNewUser]

/-- C5 witness: registering `A@x.com ` (capital, trailing space) and then
`a@x.com` hits DuplicateEmail on the second run, store unchanged. -/
theorem register_duplicate_email_witness :
    register (register dbEmpty 0 "A@x.com " "pw123456").1 1 "a@x.com" "other-pass"
      = ((register dbEmpty 0 "A@x.com " "pw123456").1, .error DuplicateEmail) :=
  register_duplicate_email dbEmpty (register dbEmpty 0 "A@x.com " "pw123456").1 0 1
    "A@x.com " "pw123456" "a@x.com" "other-pass"
    { user_id := 1, token := create_access_token 1 0 } (by decide) (by decide)

theorem upload_eq_nouser (db : DB) (now uid : Nat) (fn : Option String) (uh : String)
    (h : db.users.find? (fun x => x.id == uid) = none) :
    upload_document db now uid fn uh = (db, .error UserNotFoundErr) := by
  unfold upload_document
  simp only [h]

/-- C6: no operation of the system decreases any user's `free_docs_used`; the
counter changes only on an accepted upload by that user while non-paid, and
then by exactly one. -/
theorem free_docs_used_monotone (db : DB) (now : Nat) (op : Op) (i : Nat) (u : User)
    (h : db.users.find? (fun x => x.id == i) = some u) :
    ∃ u', (step db now op).users.find? (fun x => x.id == i) = some u'
      ∧ u.free_docs_used ≤ u'.free_docs_used
      ∧ (u'.free_docs_used = u.free_docs_used
         ∨ (u'.free_docs_used = u.free_docs_used + 1 ∧ u.is_paid = false
            ∧ ∃ fn uh, op = .upload i fn uh
              ∧ (upload_document db now i fn uh).2.isOk = true)) := by
  have hui : u.id = i := by
    have h0 := List.find?_some h
    simpa using h0
  cases op with
  | register e p =>
    cases hf : db.users.find? (fun x => x.email == pyStrip (pyLower e)) with
    | some w =>
      simp only [step, register_eq_dup db now e p w hf]
      exact ⟨u, h, Nat.le_refl _, Or.inl rfl⟩
    | none =>
      simp only [step, register_eq_new db now e p hf]
      rw [List.find?_append, h]
      exact ⟨u, rfl, Nat.le_refl _, Or.inl rfl⟩
  | login e p =>
    exact ⟨u, h, Nat.le_refl _, Or.inl rfl⟩
  | forgot_password e t =>
    cases hf : db.users.find? (fun x => x.email == pyStrip (pyLower e)) with
    | none =>
      simp only [step, forgot_password, hf]
      exact ⟨u, h, Nat.le_refl _, Or.inl rfl⟩
    | some w =>
      simp only [step, forgot_password, hf]
      exact ⟨u, h, Nat.le_refl _, Or.inl rfl⟩
  | reset_password t np =>
    by_cases hlen : np.length < 8
    · simp only [step, reset_eq_short db now t np hlen]
      exact ⟨u, h, Nat.le_refl _, Or.inl rfl⟩
    · cases hfind : db.reset_tokens.find? (fun x => x.token_hash == hash_token t) with
      | none =>
        simp only [step, reset_eq_nofind db now t np hlen hfind]
        exact ⟨u, h, Nat.le_refl _, Or.inl rfl⟩
      | some r =>
        by_cases hst : (r.used_at.isSome ∨ r.expires_at < now)
        · simp only [step, reset_eq_stale db now t np hlen r hfind hst]
          exact ⟨u, h, Nat.le_refl _, Or.inl rfl⟩
        · cases hu : db.users.find? (fun x => x.id == r.user_id) with
          | none =>
            simp only [step, reset_eq_nouser db now t np hlen r hfind hst hu]
            exact ⟨u, h, Nat.le_refl _, Or.inl rfl⟩
          | some user =>
            simp only [step, reset_eq_ok db now t np hlen r user hfind hst hu]
            rw [find?_map_pred (setPwd user.id np) (fun x => x.id == i)
              (fun x => by
                show ((setPwd user.id np x).id == i) = (x.id == i)
                rw [setPwd_id]) db.users]
            rw [h]
            exact ⟨setPwd user.id np u, rfl, by rw [setPwd_free],
              Or.inl (setPwd_free user.id np u)⟩
  | upload uid fn uh =>
    cases hcu : db.users.find? (fun x => x.id == uid) with
    | none =>
      simp only [step, upload_eq_nouser db now uid fn uh hcu]
      exact ⟨u, h, Nat.le_refl _, Or.inl rfl⟩
    | some cu =>
      have hcuid : cu.id = uid := by
        have h0 := List.find?_some hcu
        simpa using h0
      by_cases hq : cu.is_paid = false ∧ 3 ≤ cu.free_docs_used
      · simp only [step, upload_eq_denied db now uid fn uh cu hcu hq]
        exact ⟨u, h, Nat.le_refl _, Or.inl rfl⟩
      · simp only [step, upload_eq_ok db now uid fn uh cu hcu hq]
        by_cases hpaid : cu.is_paid = true
        · simp only [hpaid, if_true]
          exact ⟨u, h, Nat.le_refl _, Or.inl rfl⟩
        · have hpf : cu.is_paid = false := by
            simpa using hpaid
          simp only [hpf, Bool.false_eq_true, if_false]
          rw [find?_map_pred (bumpFree cu.id) (fun x => x.id == i)
            (fun x => by
              show ((bumpFree cu.id x).id == i) = (x.id == i)
              rw [bumpFree_id]) db.users]
          rw [h]
          by_cases hid : u.id = cu.id
          · have hiu : i = uid := by
              rw [← hui, hid, hcuid]
            have hueq : u = cu := by
              rw [hiu] at h
              exact Option.some.inj (h.symm.trans hcu)
            refine ⟨bumpFree cu.id u, rfl, ?_, ?_⟩
            · unfold bumpFree
              rw [if_pos (by simp [hid])]
              exact Nat.le_succ _
            · right
              refine ⟨?_, ?_, fn, uh, ?_, ?_⟩
              · unfold bumpFree
                rw [if_pos (by simp [hid])]
              · rw [hueq]
                exact hpf
              · rw [hiu]
              · rw [hiu, upload_eq_ok db now uid fn uh cu hcu hq]
                exact isOk_ok _
          · refine ⟨bumpFree cu.id u, rfl, ?_, ?_⟩
            · unfold bumpFree
              rw [if_neg (by simp [hid])]
            · left
              unfold bumpFree
              rw [if_neg (by simp [hid])]
  | list_docs uid =>
    exact ⟨u, h, Nat.le_refl _, Or.inl rfl⟩
  | admin_list env k =>
    exact ⟨u, h, Nat.le_refl _, Or.inl rfl⟩

/-- C6 witness: the accepted free-tier upload at a concrete store raises the
uploader's counter by exactly one, matching the upload disjunct. -/
theorem free_docs_used_monotone_witness :
    ∃ u', (step dbOneUser 7 (.upload 1 none "h1")).users.find? (fun x => x.id == 1) = some u'
      ∧ (sampleUser 1 "a@x.com" false 0).free_docs_used ≤ u'.free_docs_used
      ∧ (u'.free_docs_used = (sampleUser 1 "a@x.com" false 0).free_docs_used
         ∨ (u'.free_docs_used = (sampleUser 1 "a@x.com" false 0).free_docs_used + 1
            ∧ (sampleUser 1 "a@x.com" false 0).is_paid = false
            ∧ ∃ fn uh, (Op.upload 1 none "h1" : Op) = .upload 1 fn uh
              ∧ (upload_document dbOneUser 7 1 fn uh).2.isOk = true)) :=
  free_docs_used_monotone dbOneUser 7 (.upload 1 none "h1") 1
    (sampleUser 1 "a@x.com" false 0) (by decide)

/-- C7: listing returns exactly the caller's documents (a permutation of the
rendered filter of the table), and the returned sequence is ordered
most-recently-created first in every store where primary-key order agrees
with creation order — which holds in reachable stores, since ids are
assigned from a monotone counter as documents are created. -/
theorem list_documents_ordered (db : DB) (uid : Nat)
    (hcompat : ∀ a ∈ db.documents, ∀ b ∈ db.documents,
      a.id ≤ b.id → a.created_at ≤ b.created_at) :
    (list_documents db uid).Perm
        ((db.documents.filter (fun d => d.user_id == uid)).map docItem)
    ∧ (list_documents db uid).Pairwise (fun a b => b.created_at ≤ a.created_at) := by
  unfold list_documents
  constructor
  · exact (sortByIdDesc_perm _).map docItem
  · rw [List.pairwise_map]
    have hsorted := sortByIdDesc_pairwise (db.documents.filter (fun d => d.user_id == uid))
    apply List.Pairwise.imp_of_mem ?_ hsorted
    intro a b ha hb hid
    have ha' : a ∈ db.documents :=
      List.mem_of_mem_filter ((sortByIdDesc_perm _).mem_iff.mp ha)
    have hb' : b ∈ db.documents :=
      List.mem_of_mem_filter ((sortByIdDesc_perm _).mem_iff.mp hb)
    show (docItem b).created_at ≤ (docItem a).created_at
    exact hcompat b hb' a ha' hid

/-- C7 witness: at a concrete store the returned sequence for user 1 is its
two documents, newest first. -/
theorem list_documents_ordered_witness :
    (list_documents dbWithDocs 1).Perm
        ((dbWithDocs.documents.filter (fun d => d.user_id == 1)).map docItem)
    ∧ (list_documents dbWithDocs 1).Pairwise (fun a b => b.created_at ≤ a.created_at) :=
  list_documents_ordered dbWithDocs 1 (by decide)

/-- C8 counterexample: a token with a bad signature fails with 401 "Invalid or
expired token", while a well-signed token for a vanished user fails with 401
"User not found" — the two failures are not one and the same error value. -/
theorem get_current_user_error_counterexample :
    get_current_user dbOneUser 0 tokWrongKey = .error InvalidOrExpiredTokenAuth
    ∧ get_current_user dbOneUser 0 tokGhostUser = .error UserNotFoundErr
    ∧ InvalidOrExpiredTokenAuth ≠ UserNotFoundErr := by
  refine ⟨by decide, by decide, by decide⟩

/-- C8 (amended): every failure of bearer validation plus lookup carries the
same 401 status — bad tokens and vanished users both surface as
authentication failures — but the two paths produce the two distinct detail
messages, so the error values themselves are not equal. -/
theorem get_current_user_auth_failures (db : DB) (now : Nat) (tok : JWTPayload)
    (e : HTTPError) (h : get_current_user db now tok = .error e) :
    e.status = 401 ∧ (e = InvalidOrExpiredTokenAuth ∨ e = UserNotFoundErr) := by
  unfold get_current_user at h
  cases hd : jwt_decode tok JWT_SECRET JWT_ALG now with
  | none =>
    simp only [hd] at h
    injection h with h2
    subst h2
    exact ⟨rfl, Or.inl rfl⟩
  | some sub =>
    simp only [hd] at h
    cases hn : sub.bind pyIntNat? with
    | none =>
      simp only [hn] at h
      injection h with h2
      subst h2
      exact ⟨rfl, Or.inl rfl⟩
    | some uid0 =>
      simp only [hn] at h
      cases hu : db.users.find? (fun x => x.id == uid0) with
      | none =>
        simp only [hu] at h
        injection h with h2
        subst h2
        exact ⟨rfl, Or.inr rfl⟩
      | some w =>
        simp only [hu] at h
        exact absurd h (by simp)

/-- C8 witness: the bad-signature failure at a concrete store has status 401
and is one of the two auth failure values. -/
theorem get_current_user_auth_failures_witness :
    InvalidOrExpiredTokenAuth.status = 401
    ∧ (InvalidOrExpiredTokenAuth = InvalidOrExpiredTokenAuth
       ∨ InvalidOrExpiredTokenAuth = UserNotFoundErr) :=
  get_current_user_auth_failures dbOneUser 0 tokWrongKey InvalidOrExpiredTokenAuth (by decide)

theorem setDocStatus_id (i : Nat) (s : String) (d : Document) :
    (setDocStatus i s d).id = d.id := by
  unfold setDocStatus
  by_cases h : d.id == i
  · rw [if_pos h]
  · rw [if_neg h]

/-- C9 (modelled from the spec, as the endpoint is absent from `src/`): behind
the admin gate, a proposed status outside the three enum values fails with
InvalidStatus and changes nothing, and a proposed status among them updates
the target document's status to that value. -/
theorem set_status_validates (db : DB) (env : String) (key : Option String)
    (doc_id : Nat) (s : String)
    (hadmin : require_admin env key = .ok ()) :
    ((s ∉ validStatuses) →
       set_status db env key doc_id s = (db, .error InvalidStatus))
    ∧ (s ∈ validStatuses → ∀ d, db.documents.find? (fun x => x.id == doc_id) = some d →
        ∃ d', (set_status db env key doc_id s).1.documents.find? (fun x => x.id == doc_id) = some d'
          ∧ d'.status = s ∧ d'.id = d.id) := by
  unfold set_status
  simp only [hadmin]
  constructor
  · intro hmem
    rw [if_neg hmem]
  · intro hmem d hd
    rw [if_pos hmem]
    simp only [hd]
    rw [find?_map_pred (setDocStatus doc_id s) (fun x => x.id == doc_id)
      (fun x => by
        show ((setDocStatus doc_id s x).id == doc_id) = (x.id == doc_id)
        rw [setDocStatus_id]) db.documents]
    rw [hd]
    have hdid : (d.id == doc_id) = true := by
      have h0 := List.find?_some hd
      simpa using h0
    refine ⟨setDocStatus doc_id s d, rfl, ?_, ?_⟩
    · unfold setDocStatus
      rw [if_pos hdid]
    · exact setDocStatus_id doc_id s d

/-- C9 witness: the modelled endpoint accepts "completed" on a concrete store
and rewrites the target document's status. -/
theorem set_status_validates_witness :
    (("bogus" ∉ validStatuses) →
       set_status dbWithDocs "adm" (some "adm") 1 "bogus" = (dbWithDocs, .error InvalidStatus))
    ∧ ("bogus" ∈ validStatuses → ∀ d,
        dbWithDocs.documents.find? (fun x => x.id == 1) = some d →
        ∃ d', (set_status dbWithDocs "adm" (some "adm") 1 "bogus").1.documents.find?
            (fun x => x.id == 1) = some d'
          ∧ d'.status = "bogus" ∧ d'.id = d.id) :=
  set_status_validates dbWithDocs "adm" (some "adm") 1 "bogus" (by decide)

/-- C10: hashing and verification both strip surrounding whitespace, so
verification — and hence login — is insensitive to it: verifying any password
equals verifying its stripped form, a login attempt equals the attempt with
the stripped password, and registering with a password then logging in with
that password plus a trailing space succeeds. -/
theorem password_strip_insensitive :
    (∀ p h, verify_password p h = verify_password (pyStrip p) h)
    ∧ (∀ (db : DB) (now : Nat) (email p : String),
        login db now email p = login db now email (pyStrip p))
    ∧ (∀ (db db1 : DB) (now now2 : Nat) (email p : String) (r : RegisterResp),
        register db now email p = (db1, .ok r) →
        (login db1 now2 email (p ++ " ")).isOk = true) := by
  have hv : ∀ p h, verify_password p h = verify_password (pyStrip p) h := by
    intro p h
    unfold verify_password
    rw [pyStrip_idem]
  refine ⟨hv, ?_, ?_⟩
  · intro db now email p
    unfold login
    cases hf : db.users.find? (fun u => u.email == pyStrip (pyLower email)) with
    | none => simp only [hf]
    | some user =>
      simp only [hf]
      rw [hv p user.password_hash]
  · intro db db1 now now2 email p r h1
    cases hf : db.users.find? (fun x => x.email == pyStrip (pyLower email)) with
    | some w =>
      rw [register_eq_dup db now email p w hf, Prod.mk.injEq] at h1
      exact absurd h1.2 (by simp)
    | none =>
      rw [register_eq_new db now email p hf, Prod.mk.injEq] at h1
      obtain ⟨hdb, _⟩ := h1
      subst hdb
      unfold login
      have hfind1 : (db.users ++ [mkNewUser db now email p]).find?
          (fun x => x.email == pyStrip (pyLower email)) = some (mkNewUser db now email p) := by
        rw [List.find?_append, hf]
        simp [mkNewUser]
      simp only [hfind1]
      have hverify : verify_password (p ++ " ") (mkNewUser db now email p).password_hash = true := by
        show verify_password (p ++ " ") (hash_password p) = true
        unfold verify_password pwd_context_verify hash_password
        rw [pyStrip_append_space]
        simp
      rw [if_pos hverify]
      exact isOk_ok _

/-- C10 witness: register with `pw123456`, then log in with a trailing space
appended — the login succeeds at the concrete store. -/
theorem password_strip_insensitive_witness :
    (login (register dbEmpty 0 "a@x.com" "pw123456").1 1 "a@x.com" ("pw123456" ++ " ")).isOk
      = true :=
  password_strip_insensitive.2.2 dbEmpty (register dbEmpty 0 "a@x.com" "pw123456").1 0 1
    "a@x.com" "pw123456" { user_id := 1, token := create_access_token 1 0 } (by decide)
